import Mathlib

/-!
Verification of the cutting-list / nesting-optimization pipeline of a
multi-tenant CRM backend. The definitions below are shallow embeddings of
`backend/routes/drawing_analyser.py` and of the `Drawing` / `CuttingList`
models in `backend/models/modules/interior_design.py`; the nesting optimizer
itself (`services/nesting_optimizer.py`) is absent from the repository
snapshot and is modelled from the specification where needed.
-/

namespace DrawingAnalyser

/-- A Python numeric value as produced by `int(...)` or `float(...)`:
either an integer or a floating value (represented exactly as a rational,
since the parsed decimal strings are short and exact). -/
inductive PyNum where
  | int : ℤ → PyNum
  | float : ℚ → PyNum
  deriving DecidableEq, Repr

/-- Value of a list of decimal digit characters, most significant first,
as computed by Python `int` on an all-digit string (leading zeros allowed). -/
def digitsVal (cs : List Char) : ℕ :=
  cs.foldl (fun a c => 10 * a + (c.toNat - '0'.toNat)) 0

/-- The characters kept by the dimension parser's cleaning step
`''.join(c for c in str(value) if c.isdigit() or c == '.')`. -/
def dimClean (s : String) : List Char :=
  s.data.filter (fun c => c.isDigit || c == '.')

/-- Python `float` applied to a string made only of digits and dots
(the shape reaching the float branch of `_parse_dimension`): it succeeds
exactly when there is a single dot and at least one digit, e.g. `"1."`,
`".5"`, `"12.5"`; `"."` and `"1.2.3"` raise `ValueError`. -/
def pyFloatOfClean (cs : List Char) : Option ℚ :=
  if cs.count '.' = 1 ∧ cs.any Char.isDigit then
    let ip := cs.takeWhile (fun c => c ≠ '.')
    let fp := (cs.dropWhile (fun c => c ≠ '.')).drop 1
    some (mkRat (Int.ofNat (digitsVal ip * 10 ^ fp.length + digitsVal fp)) (10 ^ fp.length))
  else
    none

/-- Embedding of `_parse_dimension` (drawing_analyser.py lines 331-342):
early `None` for a falsy value or the literal `"N/A"`, then keep only digits
and dots, then `float` if a dot is present else `int`, with any exception
turned into `None`. -/
def _parse_dimension (value : String) : Option PyNum :=
  if value = "" ∨ value = "N/A" then
    none
  else
    let cs := dimClean value
    if cs.contains '.' then
      (pyFloatOfClean cs).map PyNum.float
    else if cs = [] then
      none
    else
      some (.int (digitsVal cs))

/-- The dimension parser as the specification words it (section 4.1): strip
all characters except digits and the decimal point; `None` when the cleaned
string is empty or unparseable; an integer when no decimal point is present,
otherwise a floating value. Stated separately so the code's extra early
return for `""` / `"N/A"` can be compared against it. -/
def specDimensionParse (value : String) : Option PyNum :=
  let cs := dimClean value
  if cs.contains '.' then
    (pyFloatOfClean cs).map PyNum.float
  else if cs = [] then
    none
  else
    some (.int (digitsVal cs))

/-- Embedding of `_parse_quantity` (drawing_analyser.py lines 344-349):
`int` of the digit characters of the input, any exception (in particular
`int("")`) giving `1`. -/
def _parse_quantity (value : String) : ℤ :=
  let ds := value.data.filter Char.isDigit
  if ds = [] then 1 else (digitsVal ds : ℤ)

/-- A Python runtime exception relevant to the embedded code paths. -/
inductive PyError where
  | nameError : String → PyError
  deriving DecidableEq, Repr

/-- A persisted cutting-list row (`CuttingList` model,
interior_design.py lines 576-599), restricted to the columns the embedded
routes read. `component_width`, `overall_unit_width`, `height` and
`material_thickness` are nullable integer columns. -/
structure CLRow where
  id : String
  drawing_id : String
  component_type : String
  part_name : String
  overall_unit_width : Option ℤ
  component_width : Option ℤ
  height : Option ℤ
  quantity : ℤ
  material_thickness : Option ℤ
  edge_banding_notes : Option String
  deriving DecidableEq, Repr

/-- A persisted drawing record (`Drawing` model, interior_design.py lines
515-541), restricted to the columns the embedded routes read. The
`optimization_result` snapshot stores the piece list handed to the nesting
optimizer, since the optimizer module itself is not part of the snapshot. -/
structure DrawingRec where
  id : String
  tenant_id : String
  status : String
  file_path : String
  optimization_result : Option (List (String × Option ℤ × Option ℤ × String))
  deriving DecidableEq, Repr

/-- The OCR service result as consumed by `upload_drawing`
(keys `success` and `table_data` of the returned dictionary). -/
structure OcrResult where
  success : Bool
  table_data : Option (List (List String))
  deriving DecidableEq, Repr

/-- Status written on the new drawing (drawing_analyser.py line 112):
`'completed' if ocr_result.get('success') else 'failed'`. -/
def drawingStatus (r : OcrResult) : String :=
  if r.success then "completed" else "failed"

/-- Embedding of the data-row loop of `upload_drawing` (drawing_analyser.py
lines 128-147): rows with fewer than 7 cells are skipped; for every other
row the expression `self._parse_dimension(row[2])` is evaluated, and since
`self` is not bound anywhere in the module-level function `upload_drawing`,
that evaluation raises `NameError: name 'self' is not defined` before any
`CuttingList` object is constructed. -/
def processRows : List (List String) → Except PyError (List CLRow)
  | [] => .ok []
  | row :: rest =>
    if row.length < 7 then processRows rest
    else .error (.nameError "self")

/-- The cutting-list rows built by `upload_drawing` for an OCR result
(drawing_analyser.py line 124): the loop body runs only when
`ocr_result.get('success')` and `ocr_result.get('table_data')` are both
truthy (an empty table is falsy), and it skips the header row. -/
def extractRows (r : OcrResult) : Except PyError (List CLRow) :=
  match r.table_data with
  | some t => if r.success && !t.isEmpty then processRows (t.drop 1) else .ok []
  | none => .ok []

/-- The database state touched by the drawing-analyser routes. -/
structure UploadDB where
  drawings : List DrawingRec
  cutting : List CLRow
  deriving DecidableEq, Repr

/-- Response of the upload route, reduced to the fields the claims are
about. -/
inductive UploadResp where
  | created : String → List CLRow → UploadResp
  | serverError : PyError → UploadResp
  deriving DecidableEq, Repr

/-- Embedding of `upload_drawing` (drawing_analyser.py lines 83-166) from
the OCR call onward: the OCR call itself may raise (modelled by the
`Except` argument); the drawing and its rows are staged on the session and
only reach the database at the single `db.session.commit()`; any exception
rolls the session back, leaving the database unchanged, and a 500 error
response is returned. -/
def upload_drawing (db : UploadDB) (tid newId fp : String)
    (ocr : Except PyError OcrResult) : UploadDB × UploadResp :=
  match ocr with
  | .error e => (db, .serverError e)
  | .ok r =>
    match extractRows r with
    | .error e => (db, .serverError e)
    | .ok rows =>
      ({ drawings := db.drawings ++
            [{ id := newId, tenant_id := tid, status := drawingStatus r,
               file_path := fp, optimization_result := none }],
         cutting := db.cutting ++ rows },
       .created (drawingStatus r) rows)

/-- The tenant-scoped drawing lookup shared by the get, preview, optimize
and delete routes: `Drawing.query.filter_by(id=drawing_id,
tenant_id=tenant_id).first()`. -/
def findDrawing (db : UploadDB) (did tid : String) : Option DrawingRec :=
  db.drawings.find? (fun d => d.id == did && d.tenant_id == tid)

/-- Response of `get_drawing` (drawing_analyser.py lines 169-183). -/
inductive GetResp where
  | notFound
  | ok : DrawingRec → List CLRow → GetResp
  deriving DecidableEq, Repr

/-- Embedding of `get_drawing`: 404 when no drawing matches both the id and
the tenant, otherwise the drawing serialized with its cutting list. -/
def get_drawing (db : UploadDB) (did tid : String) : GetResp :=
  match findDrawing db did tid with
  | none => .notFound
  | some d => .ok d (db.cutting.filter (fun c => c.drawing_id == did))

/-- Response of `preview_drawing` (drawing_analyser.py lines 219-236). -/
inductive PreviewResp where
  | notFound
  | fileMissing
  | sendFile : String → PreviewResp
  deriving DecidableEq, Repr

/-- Embedding of `preview_drawing`: tenant-scoped lookup, then the stored
file is served when it exists on disk (`fileExists` abstracts the
filesystem check). -/
def preview_drawing (fileExists : String → Bool) (db : UploadDB)
    (did tid : String) : PreviewResp :=
  match findDrawing db did tid with
  | none => .notFound
  | some d => if fileExists d.file_path then .sendFile d.file_path else .fileMissing

/-- A piece dictionary appended by `optimize_nesting`
(drawing_analyser.py lines 281-286): keys `id`, `width`, `height`, `name`. -/
structure Piece where
  id : String
  width : Option ℤ
  height : Option ℤ
  name : String
  deriving DecidableEq, Repr

/-- The pieces contributed by one cutting-list row: the inner
`for _ in range(item.quantity)` loop (a non-positive quantity contributes
nothing, as `range` of a non-positive bound is empty). -/
def piecesOfRow (item : CLRow) : List Piece :=
  List.replicate item.quantity.toNat
    ⟨item.id, item.component_width, item.height, item.part_name⟩

/-- Embedding of the piece-building loop of `optimize_nesting`
(drawing_analyser.py lines 277-286): every row contributes
`quantity` pieces with its stored `component_width`, `height` and
`part_name`; no row is filtered out and no validation is performed. -/
def buildPieces : List CLRow → List Piece
  | [] => []
  | item :: rest => piecesOfRow item ++ buildPieces rest

/-- Response of the optimize route, reduced to the fields the claims are
about: the piece list handed to the nesting optimizer stands for the
optimizer call at the module boundary. -/
inductive OptRouteResp where
  | notFound
  | noCuttingList
  | ok : List Piece → OptRouteResp
  deriving DecidableEq, Repr

/-- The snapshot form of a piece stored on the drawing record. -/
def pieceTuple (p : Piece) : String × Option ℤ × Option ℤ × String :=
  (p.id, p.width, p.height, p.name)

/-- Writing the optimization snapshot back onto the drawing record
(drawing_analyser.py lines 297-300). -/
def setOptResult (db : UploadDB) (did : String) (pieces : List Piece) : UploadDB :=
  { db with drawings := db.drawings.map (fun d =>
      if d.id == did then
        { d with optimization_result := some (pieces.map pieceTuple) }
      else d) }

/-- Embedding of `optimize_nesting` (drawing_analyser.py lines 239-302):
tenant-scoped lookup (404 on miss, nothing else happens), 404 when the
drawing has no cutting-list rows, otherwise every row is expanded by its
quantity and the full piece list is handed to the optimizer, whose result
is stored on the drawing. -/
def optimize_nesting (db : UploadDB) (did tid : String) : UploadDB × OptRouteResp :=
  match findDrawing db did tid with
  | none => (db, .notFound)
  | some _ =>
    let items := db.cutting.filter (fun c => c.drawing_id == did)
    if items.isEmpty then (db, .noCuttingList)
    else
      let pieces := buildPieces items
      (setOptResult db did pieces, .ok pieces)

/-- Response of `delete_drawing` (drawing_analyser.py lines 305-327). -/
inductive DeleteResp where
  | notFound
  | deleted
  deriving DecidableEq, Repr

/-- Embedding of `delete_drawing`: tenant-scoped lookup (404 on miss,
nothing deleted), otherwise the drawing row and, by the `CASCADE` on
`cutting_lists.drawing_id`, its cutting-list rows are removed. -/
def delete_drawing (db : UploadDB) (did tid : String) : UploadDB × DeleteResp :=
  match findDrawing db did tid with
  | none => (db, .notFound)
  | some _ =>
    ({ drawings := db.drawings.filter (fun d => !(d.id == did)),
       cutting := db.cutting.filter (fun c => !(c.drawing_id == did)) },
     .deleted)

/-- Floor of a rational, computed on the raw numerator and denominator. -/
def ratFloorZ (q : ℚ) : ℤ :=
  q.num.fdiv q.den

/-- Round a rational to the nearest integer, ties to the even integer —
the rounding used by Python's built-in `round`. -/
def roundHalfEven (q : ℚ) : ℤ :=
  let f := ratFloorZ q
  let rnum := q.num - f * q.den
  if 2 * rnum < q.den then f
  else if (q.den : ℤ) < 2 * rnum then f + 1
  else if f % 2 = 0 then f else f + 1

/-- Python `round(n / den, d)` for an integer `n` and positive integer
`den`, with exact rational arithmetic. -/
def roundDiv (n : ℤ) (den : ℕ) (d : ℕ) : ℚ :=
  mkRat (roundHalfEven (mkRat (n * 10 ^ d) den)) (10 ^ d)

/-- Python `round(q, d)` on an exact rational, as the specification words
the area rounding. -/
def roundToDec (q : ℚ) (d : ℕ) : ℚ :=
  mkRat (roundHalfEven (q * 10 ^ d)) (10 ^ d)

/-- The `area_mm2` field of `CuttingList.to_dict`
(interior_design.py line 618): `(self.component_width or 0) * (self.height
or 0)`; a `None` column is coalesced to `0`. -/
def CuttingList.area_mm2 (item : CLRow) : ℤ :=
  item.component_width.getD 0 * item.height.getD 0

/-- The `area_m2` field of `CuttingList.to_dict`
(interior_design.py line 619): the mm² area divided by 1,000,000 and
rounded to 4 decimals. -/
def CuttingList.area_m2 (item : CLRow) : ℚ :=
  roundDiv (CuttingList.area_mm2 item) 1000000 4

/-- Embedding of `Drawing._calculate_total_area`
(interior_design.py lines 566-572): sum of
`(width or 0) * (height or 0) * (quantity or 0)` over the drawing's rows,
divided by 1,000,000 and rounded to 2 decimals. -/
def Drawing.calculate_total_area (items : List CLRow) : ℚ :=
  roundDiv
    (items.foldl
      (fun a item =>
        a + item.component_width.getD 0 * item.height.getD 0 * item.quantity)
      0)
    1000000 2

end DrawingAnalyser

namespace NestingModel

/-- A piece instance with concrete positive dimensions, as the nesting
optimizer consumes it. -/
structure NPiece where
  id : String
  width : ℤ
  height : ℤ
  name : String
  deriving DecidableEq, Repr

/-- Sheet configuration of an optimization request: sheet size and blade
kerf. -/
structure NestConfig where
  sheet_width : ℤ
  sheet_height : ℤ
  blade_width : ℤ
  deriving DecidableEq, Repr

/-- A free rectangle of an open sheet (guillotine free-rectangle list). -/
structure FreeRect where
  x : ℤ
  y : ℤ
  w : ℤ
  h : ℤ
  deriving DecidableEq, BEq, Repr

/-- The placement of one piece instance: sheet index, top-left corner,
rotation flag. -/
structure NPlacement where
  piece : NPiece
  sheet_index : ℕ
  x : ℤ
  y : ℤ
  rotated : Bool
  deriving DecidableEq, Repr

def areaOf (p : NPiece) : ℤ := p.width * p.height

def rectArea (r : FreeRect) : ℤ := r.w * r.h

/-- Stable insertion keeping the list sorted by strictly descending area:
an incoming piece passes a resident piece only when the resident's area is
strictly smaller, so equal-area pieces keep their input order. -/
def insertDesc (p : NPiece) : List NPiece → List NPiece
  | [] => [p]
  | q :: qs => if areaOf q < areaOf p then p :: q :: qs else q :: insertDesc p qs

/-- Sort pieces by descending area (largest first), stably. -/
def sortPiecesDesc : List NPiece → List NPiece
  | [] => []
  | p :: ps => insertDesc p (sortPiecesDesc ps)

/-- A candidate fit: a sheet index, the free rectangle, and whether the
piece is rotated 90°. -/
structure Fit where
  sheet : ℕ
  rect : FreeRect
  rotated : Bool
  deriving DecidableEq, Repr

/-- The fits a single free rectangle offers a piece: unrotated when it
contains the piece, rotated when the swapped dimensions fit (a square is
never offered rotated). -/
def rectFits (p : NPiece) (idx : ℕ) (r : FreeRect) : List Fit :=
  (if p.width ≤ r.w ∧ p.height ≤ r.h then [⟨idx, r, false⟩] else []) ++
  (if p.width ≠ p.height ∧ p.height ≤ r.w ∧ p.width ≤ r.h then
    [⟨idx, r, true⟩] else [])

def sheetFitsList (p : NPiece) (idx : ℕ) : List FreeRect → List Fit
  | [] => []
  | r :: rs => rectFits p idx r ++ sheetFitsList p idx rs

/-- All candidate fits across the open sheets, enumerated in sheet order. -/
def collectFits (p : NPiece) : ℕ → List (List FreeRect) → List Fit
  | _, [] => []
  | idx, s :: ss => sheetFitsList p idx s ++ collectFits p (idx + 1) ss

/-- Best-fit selection: the candidate with the smallest free-rectangle
area, ties broken by enumeration order (lowest sheet first, then the
sheet's free-rectangle order, unrotated before rotated). -/
def chooseBest : List Fit → Option Fit
  | [] => none
  | f :: fs =>
    match chooseBest fs with
    | none => some f
    | some g => some (if rectArea g.rect < rectArea f.rect then g else f)

/-- Guillotine split of a free rectangle after placing a `pw × ph` piece at
its origin: one remainder to the right, one below, each shrunk by the blade
kerf and kept only when non-degenerate. -/
def splitRects (r : FreeRect) (pw ph kerf : ℤ) : List FreeRect :=
  (if 0 < r.w - pw - kerf ∧ 0 < ph then
    [⟨r.x + pw + kerf, r.y, r.w - pw - kerf, ph⟩] else []) ++
  (if 0 < r.w ∧ 0 < r.h - ph - kerf then
    [⟨r.x, r.y + ph + kerf, r.w, r.h - ph - kerf⟩] else [])

/-- Place one piece: choose the best fit among the open sheets; when none
exists, open a fresh sheet and place there (rotating if only the rotated
orientation fits), or fail explicitly when the piece exceeds the sheet in
both orientations. -/
def placeOne (cfg : NestConfig) (sheets : List (List FreeRect)) (p : NPiece) :
    Except String (List (List FreeRect) × NPlacement) :=
  match chooseBest (collectFits p 0 sheets) with
  | some f =>
    let pw := if f.rotated then p.height else p.width
    let ph := if f.rotated then p.width else p.height
    let old := sheets.getD f.sheet []
    let newRects := (old.erase f.rect) ++ splitRects f.rect pw ph cfg.blade_width
    .ok (sheets.set f.sheet newRects, ⟨p, f.sheet, f.rect.x, f.rect.y, f.rotated⟩)
  | none =>
    let fresh : FreeRect := ⟨0, 0, cfg.sheet_width, cfg.sheet_height⟩
    if p.width ≤ fresh.w ∧ p.height ≤ fresh.h then
      .ok (sheets ++ [splitRects fresh p.width p.height cfg.blade_width],
        ⟨p, sheets.length, 0, 0, false⟩)
    else if p.height ≤ fresh.w ∧ p.width ≤ fresh.h then
      .ok (sheets ++ [splitRects fresh p.height p.width cfg.blade_width],
        ⟨p, sheets.length, 0, 0, true⟩)
    else
      .error ("piece too large for sheet: " ++ p.id)

/-- Total area of the placed pieces. -/
def placedArea (ps : List NPlacement) : ℤ :=
  (ps.map (fun pl => pl.piece.width * pl.piece.height)).sum

/-- Summary of an optimization run: sheets used, all placements,
utilization percentage and waste area. -/
structure OptResult where
  sheets_used : ℕ
  placements : List NPlacement
  utilization_percent : ℚ
  waste_area_mm2 : ℤ
  deriving DecidableEq, Repr

def mkResult (cfg : NestConfig) (nsheets : ℕ) (ps : List NPlacement) : OptResult :=
  let total : ℤ := (nsheets : ℤ) * cfg.sheet_width * cfg.sheet_height
  { sheets_used := nsheets
    placements := ps
    utilization_percent :=
      if total = 0 then 0 else (placedArea ps : ℚ) / (total : ℚ) * 100
    waste_area_mm2 := total - placedArea ps }

def optimizeGo (cfg : NestConfig) :
    List NPiece → List (List FreeRect) → List NPlacement → Except String OptResult
  | [], sheets, acc => .ok (mkResult cfg sheets.length acc)
  | p :: ps, sheets, acc =>
    match placeOne cfg sheets p with
    | .ok (sheets2, pl) => optimizeGo cfg ps sheets2 (acc ++ [pl])
    | .error e => .error e

/-- Modelled from the spec: `services/nesting_optimizer.py` (class
`NestingOptimizer`) is imported by the route but missing from the
repository snapshot, so the optimizer is modelled from specification
§4.3 / §7: reject invalid sheet configurations, sort pieces by descending
area, repeatedly place each piece in the best-fitting free rectangle across
the open sheets (rotation allowed, guillotine split with kerf spacing),
opening a new sheet when nothing fits and failing explicitly on a piece
larger than the sheet in both orientations; finally report utilization and
waste. It is a pure function of the piece list and the configuration. -/
def NestingOptimizer.optimize (cfg : NestConfig) (pieces : List NPiece) :
    Except String OptResult :=
  if cfg.sheet_width ≤ 0 ∨ cfg.sheet_height ≤ 0 ∨ cfg.blade_width < 0 then
    .error "invalid sheet configuration"
  else
    optimizeGo cfg (sortPiecesDesc pieces) [] []

end NestingModel

namespace DrawingAnalyser

/-- The early `return None` of `_parse_dimension` for `""` and `"N/A"` is
redundant: on every string the parser agrees with the plain
strip-then-parse description of the specification. -/
lemma parse_dimension_eq_specDimensionParse (s : String) :
    _parse_dimension s = specDimensionParse s := by
  unfold _parse_dimension specDimensionParse
  by_cases h : s = "" ∨ s = "N/A"
  · rcases h with h | h <;> subst h <;> decide
  · rw [if_neg h]

lemma specDimensionParse_of_contains_dot (s : String)
    (h : (dimClean s).contains '.' = true) :
    specDimensionParse s = (pyFloatOfClean (dimClean s)).map PyNum.float := by
  unfold specDimensionParse
  rw [if_pos h]

lemma specDimensionParse_of_not_dot (s : String)
    (h : (dimClean s).contains '.' = false) :
    specDimensionParse s =
      if dimClean s = [] then none
      else some (.int (digitsVal (dimClean s))) := by
  unfold specDimensionParse
  rw [if_neg (by rw [h]; simp)]

lemma mkRat_125_10 : mkRat (Int.ofNat 125) 10 = (12.5 : ℚ) := by
  rw [Rat.mkRat_eq_div]
  norm_num

/-- C7: for every input string, `_parse_dimension` strips all characters
except digits and the decimal point, returns `None` when the cleaned string
is empty or unparseable, returns an integer when no decimal point is
present and a float otherwise; in particular
`_parse_dimension("900mm") == 900`, `_parse_dimension("N/A") is None`,
`_parse_dimension("") is None`, `_parse_dimension("12.5") == 12.5`. -/
theorem parse_dimension_spec :
    (∀ s, _parse_dimension s = specDimensionParse s)
    ∧ (∀ s, dimClean s = [] → _parse_dimension s = none)
    ∧ (∀ s, (dimClean s).contains '.' = false →
        _parse_dimension s = none ∨ ∃ k : ℤ, _parse_dimension s = some (.int k))
    ∧ (∀ s, (dimClean s).contains '.' = true →
        _parse_dimension s = none ∨ ∃ q : ℚ, _parse_dimension s = some (.float q))
    ∧ _parse_dimension "900mm" = some (.int 900)
    ∧ _parse_dimension "N/A" = none
    ∧ _parse_dimension "" = none
    ∧ _parse_dimension "12.5" = some (.float 12.5) := by
  refine ⟨parse_dimension_eq_specDimensionParse, ?_, ?_, ?_,
    by decide, by decide, rfl, ?_⟩
  · intro s h
    rw [parse_dimension_eq_specDimensionParse,
      specDimensionParse_of_not_dot s (by rw [h]; rfl), if_pos h]
  · intro s h
    rw [parse_dimension_eq_specDimensionParse, specDimensionParse_of_not_dot s h]
    by_cases hc : dimClean s = []
    · rw [if_pos hc]
      exact Or.inl rfl
    · rw [if_neg hc]
      exact Or.inr ⟨_, rfl⟩
  · intro s h
    rw [parse_dimension_eq_specDimensionParse, specDimensionParse_of_contains_dot s h]
    cases hq : pyFloatOfClean (dimClean s) with
    | none => exact Or.inl rfl
    | some q => exact Or.inr ⟨q, rfl⟩
  · have h125 : _parse_dimension "12.5" = some (.float (mkRat (Int.ofNat 125) 10)) := by
      decide
    rw [h125, mkRat_125_10]

/-- Witness for C7 at the concrete input `"N/A"`. -/
theorem parse_dimension_spec_witness : _parse_dimension "N/A" = none :=
  parse_dimension_spec.2.1 "N/A" (by decide)

/-- C3 counterexample: `_parse_quantity("0")` returns `0`, so the quantity
parser does return zero, contrary to the claim. -/
theorem parse_quantity_zero_cex : _parse_quantity "0" = 0 := by decide

/-- C3 (amended): `_parse_quantity` strips all non-digit characters and
returns the resulting integer, returning `1` when the stripped string is
empty; it never raises and never returns a negative number, but it returns
`0` when the remaining digits are all zeros; the stated examples hold. -/
theorem parse_quantity_amended :
    (∀ s, 0 ≤ _parse_quantity s)
    ∧ (∀ s, s.data.filter Char.isDigit = [] → _parse_quantity s = 1)
    ∧ (∀ s, s.data.filter Char.isDigit ≠ [] →
        _parse_quantity s = (digitsVal (s.data.filter Char.isDigit) : ℤ))
    ∧ _parse_quantity "4 pcs" = 4
    ∧ _parse_quantity "" = 1
    ∧ _parse_quantity "abc" = 1 := by
  refine ⟨?_, ?_, ?_, by decide, rfl, by decide⟩
  · intro s
    unfold _parse_quantity
    dsimp only
    split <;> omega
  · intro s h
    unfold _parse_quantity
    dsimp only
    rw [if_pos h]
  · intro s h
    unfold _parse_quantity
    dsimp only
    rw [if_neg h]

/-- Witness for C3's amended statement at the concrete input `"abc"`. -/
theorem parse_quantity_amended_witness : _parse_quantity "abc" = 1 :=
  parse_quantity_amended.2.1 "abc" (by decide)

/-- C1: the upload pipeline evaluated at a successful OCR result whose
table has a header row and one complete 7-cell data row. The claim says a
cutting-list record is created from the row's cells; the code instead
evaluates `self._parse_dimension(row[2])` in the module-level function
`upload_drawing`, where `self` is unbound, so the request raises
`NameError`, is rolled back and answers 500 — no record is created. -/
theorem upload_data_row_name_error :
    upload_drawing ⟨[], []⟩ "t1" "d1" "f.png"
        (.ok ⟨true,
          some [["Component", "Part", "OW", "CW", "H", "Q", "MT"],
                ["BASE", "Base Unit 600", "600", "600", "720", "4", "18"]]⟩)
      = (⟨[], []⟩, .serverError (.nameError "self")) := rfl

/-- C4 counterexample: an OCR result with `success: true` and no
`table_data` leads to a drawing whose status is `"completed"`, not
`"failed"` as the claim states. -/
theorem upload_missing_table_completed_cex :
    upload_drawing ⟨[], []⟩ "t1" "d1" "f.png" (.ok ⟨true, none⟩)
      = (⟨[{ id := "d1", tenant_id := "t1", status := "completed",
             file_path := "f.png", optimization_result := none }], []⟩,
         .created "completed" [])
    ∧ "completed" ≠ "failed" :=
  ⟨rfl, by decide⟩

lemma extractRows_of_success_false (r : OcrResult) (h : r.success = false) :
    extractRows r = .ok [] := by
  unfold extractRows
  cases r.table_data with
  | none => rfl
  | some t => rw [h]; rfl

lemma extractRows_of_no_table (r : OcrResult) (h : r.table_data = none) :
    extractRows r = .ok [] := by
  unfold extractRows
  rw [h]

/-- C4 (amended): the drawing's status is `"failed"` exactly when the OCR
result's `success` is falsy, in which case no cutting-list records are
created; a missing `table_data` also creates no cutting-list records, but
leaves the status `"completed"` whenever `success` is true. -/
theorem upload_failed_status_amended (db : UploadDB) (tid nid fp : String)
    (r : OcrResult) :
    (r.success = false →
      upload_drawing db tid nid fp (.ok r)
        = ({ drawings := db.drawings ++
              [{ id := nid, tenant_id := tid, status := "failed",
                 file_path := fp, optimization_result := none }],
             cutting := db.cutting }, .created "failed" []))
    ∧ (r.table_data = none →
      upload_drawing db tid nid fp (.ok r)
        = ({ drawings := db.drawings ++
              [{ id := nid, tenant_id := tid, status := drawingStatus r,
                 file_path := fp, optimization_result := none }],
             cutting := db.cutting }, .created (drawingStatus r) []))
    ∧ (r.success = true → drawingStatus r = "completed") := by
  refine ⟨?_, ?_, ?_⟩
  · intro h
    unfold upload_drawing
    dsimp only
    rw [extractRows_of_success_false r h]
    simp [drawingStatus, h]
  · intro h
    unfold upload_drawing
    dsimp only
    rw [extractRows_of_no_table r h]
    simp
  · intro h
    unfold drawingStatus
    rw [h]
    rfl

/-- Witness for C4's amended statement: a failed OCR result on an empty
database. -/
theorem upload_failed_status_amended_witness :
    upload_drawing ⟨[], []⟩ "t1" "d1" "f.png" (.ok ⟨false, none⟩)
      = (⟨[{ id := "d1", tenant_id := "t1", status := "failed",
             file_path := "f.png", optimization_result := none }], []⟩,
         .created "failed" []) := by
  have h := (upload_failed_status_amended ⟨[], []⟩ "t1" "d1" "f.png"
    ⟨false, none⟩).1 rfl
  simpa using h

/-- C9: the upload handler is atomic on error — whenever it answers with a
500 server error (any exception between the OCR call and the commit), the
database is left exactly as it was: no drawing row and no cutting-list
rows from the request are persisted. -/
theorem upload_rollback_on_error (db : UploadDB) (tid nid fp : String)
    (ocr : Except PyError OcrResult) :
    (∀ e, ocr = .error e →
      upload_drawing db tid nid fp ocr = (db, .serverError e))
    ∧ (∀ r e, ocr = .ok r → extractRows r = .error e →
      upload_drawing db tid nid fp ocr = (db, .serverError e))
    ∧ (∀ e, (upload_drawing db tid nid fp ocr).2 = .serverError e →
      (upload_drawing db tid nid fp ocr).1 = db) := by
  refine ⟨?_, ?_, ?_⟩
  · intro e h
    subst h
    rfl
  · intro r e h1 h2
    subst h1
    unfold upload_drawing
    dsimp only
    rw [h2]
  · intro e h
    cases ocr with
    | error e2 => rfl
    | ok r =>
      cases he : extractRows r with
      | error e2 => unfold upload_drawing; dsimp only; rw [he]
      | ok rows =>
        unfold upload_drawing at h
        dsimp only at h
        rw [he] at h
        exact absurd h (by simp)

/-- Witness for C9: an OCR call that raises, against a one-drawing
database. -/
theorem upload_rollback_on_error_witness :
    upload_drawing ⟨[⟨"d0", "t1", "completed", "g.png", none⟩], []⟩
        "t1" "d1" "f.png" (.error (.nameError "boom"))
      = (⟨[⟨"d0", "t1", "completed", "g.png", none⟩], []⟩,
         .serverError (.nameError "boom")) :=
  (upload_rollback_on_error ⟨[⟨"d0", "t1", "completed", "g.png", none⟩], []⟩
    "t1" "d1" "f.png" (.error (.nameError "boom"))).1 (.nameError "boom") rfl

lemma findDrawing_eq_none (db : UploadDB) (did tid : String)
    (h : ∀ d ∈ db.drawings, d.id = did → d.tenant_id ≠ tid) :
    findDrawing db did tid = none := by
  apply List.find?_eq_none.mpr
  intro d hd
  simp only [Bool.and_eq_true, beq_iff_eq, not_and]
  exact fun h1 h2 => h d hd h1 h2

/-- C10: tenant scoping — when every drawing carrying the requested id
belongs to a different tenant than the request's `X-Tenant-ID`, the get,
preview, optimize and delete routes all answer 404 "Drawing not found",
read no cutting list, run no optimization, and delete nothing (the
database is unchanged). -/
theorem tenant_scoping_not_found (db : UploadDB) (did tid : String)
    (fileExists : String → Bool)
    (h : ∀ d ∈ db.drawings, d.id = did → d.tenant_id ≠ tid) :
    get_drawing db did tid = .notFound
    ∧ preview_drawing fileExists db did tid = .notFound
    ∧ optimize_nesting db did tid = (db, .notFound)
    ∧ delete_drawing db did tid = (db, .notFound) := by
  have hf := findDrawing_eq_none db did tid h
  refine ⟨?_, ?_, ?_, ?_⟩
  · unfold get_drawing
    rw [hf]
  · unfold preview_drawing
    rw [hf]
  · unfold optimize_nesting
    rw [hf]
  · unfold delete_drawing
    rw [hf]

/-- Witness for C10: a one-drawing database owned by tenant `"t1"`,
queried with tenant `"t2"`. -/
theorem tenant_scoping_not_found_witness :
    get_drawing ⟨[⟨"d1", "t1", "completed", "f.png", none⟩], []⟩ "d1" "t2"
        = .notFound
    ∧ preview_drawing (fun _ => true)
        ⟨[⟨"d1", "t1", "completed", "f.png", none⟩], []⟩ "d1" "t2" = .notFound
    ∧ optimize_nesting ⟨[⟨"d1", "t1", "completed", "f.png", none⟩], []⟩ "d1" "t2"
        = (⟨[⟨"d1", "t1", "completed", "f.png", none⟩], []⟩, .notFound)
    ∧ delete_drawing ⟨[⟨"d1", "t1", "completed", "f.png", none⟩], []⟩ "d1" "t2"
        = (⟨[⟨"d1", "t1", "completed", "f.png", none⟩], []⟩, .notFound) :=
  tenant_scoping_not_found ⟨[⟨"d1", "t1", "completed", "f.png", none⟩], []⟩
    "d1" "t2" (fun _ => true) (by decide)

/-- C2 counterexample: a drawing whose only cutting-list row has
`component_width = None` (an invalid dimension). The optimize route passes
a piece derived from that row straight to the optimizer — the row is not
excluded and the response carries no validation warning (the response type
of the route has no warning field at all). -/
theorem optimize_invalid_row_passed_cex :
    (optimize_nesting
        ⟨[⟨"d1", "t1", "completed", "f.png", none⟩],
         [⟨"r1", "d1", "GABLE", "Side", none, none, some 720, 1, some 18, none⟩]⟩
        "d1" "t1").2
      = .ok [{ id := "r1", width := none, height := some 720, name := "Side" }] :=
  rfl

lemma mem_buildPieces (items : List CLRow) (item : CLRow)
    (hmem : item ∈ items) (hq : 1 ≤ item.quantity) :
    (⟨item.id, item.component_width, item.height, item.part_name⟩ : Piece)
      ∈ buildPieces items := by
  induction items with
  | nil => cases hmem
  | cons a t ih =>
    rcases List.mem_cons.mp hmem with h1 | h1
    · subst h1
      apply List.mem_append_left
      unfold piecesOfRow
      exact List.mem_replicate.mpr ⟨by omega, rfl⟩
    · exact List.mem_append_right _ (ih h1)

/-- C2 (amended): no validation filtering occurs — for every optimization
request that reaches the piece-building step, every persisted row of the
drawing, including rows whose `component_width` or `height` is `None` or
not greater than 0, contributes its `quantity` piece instances (carrying
the raw stored dimensions) to the list handed to the optimizer, and no
validation warning is reported. -/
theorem optimize_no_filtering (db : UploadDB) (did tid : String)
    (d : DrawingRec) (hd : findDrawing db did tid = some d)
    (hne : (db.cutting.filter (fun c => c.drawing_id == did)).isEmpty = false) :
    optimize_nesting db did tid
      = (setOptResult db did
          (buildPieces (db.cutting.filter (fun c => c.drawing_id == did))),
         .ok (buildPieces (db.cutting.filter (fun c => c.drawing_id == did))))
    ∧ ∀ item ∈ db.cutting.filter (fun c => c.drawing_id == did),
        1 ≤ item.quantity →
        (⟨item.id, item.component_width, item.height, item.part_name⟩ : Piece)
          ∈ buildPieces (db.cutting.filter (fun c => c.drawing_id == did)) := by
  constructor
  · unfold optimize_nesting
    rw [hd]
    dsimp only
    rw [hne]
    rfl
  · intro item hmem hq
    exact mem_buildPieces _ item hmem hq

/-- Witness for C2's amended statement: the invalid-width row of the
counterexample database is handed to the optimizer. -/
theorem optimize_no_filtering_witness :
    optimize_nesting
        ⟨[⟨"d1", "t1", "completed", "f.png", none⟩],
         [⟨"r1", "d1", "GABLE", "Side", none, none, some 720, 1, some 18, none⟩]⟩
        "d1" "t1"
      = (setOptResult
          ⟨[⟨"d1", "t1", "completed", "f.png", none⟩],
           [⟨"r1", "d1", "GABLE", "Side", none, none, some 720, 1, some 18, none⟩]⟩
          "d1"
          (buildPieces
            ([⟨"r1", "d1", "GABLE", "Side", none, none, some 720, 1, some 18,
               none⟩].filter (fun c => c.drawing_id == "d1"))),
         .ok (buildPieces
            ([⟨"r1", "d1", "GABLE", "Side", none, none, some 720, 1, some 18,
               none⟩].filter (fun c => c.drawing_id == "d1")))) :=
  (optimize_no_filtering
    ⟨[⟨"d1", "t1", "completed", "f.png", none⟩],
     [⟨"r1", "d1", "GABLE", "Side", none, none, some 720, 1, some 18, none⟩]⟩
    "d1" "t1" ⟨"d1", "t1", "completed", "f.png", none⟩ rfl rfl).1

lemma buildPieces_append (l1 l2 : List CLRow) :
    buildPieces (l1 ++ l2) = buildPieces l1 ++ buildPieces l2 := by
  induction l1 with
  | nil => rfl
  | cons a t ih => simp [buildPieces, ih]

/-- C6: a persisted cutting-list row with `quantity = N ≥ 1` and valid
dimensions contributes exactly `N` consecutive piece instances to the list
handed to the optimizer, each carrying `width = component_width`,
`height = height`, `name = part_name` and the row's id. -/
theorem quantity_expansion_exact (pre post : List CLRow) (item : CLRow)
    (N w h : ℤ)
    (hq : item.quantity = N) (hN : 1 ≤ N)
    (hw : item.component_width = some w) (hwpos : 0 < w)
    (hh : item.height = some h) (hhpos : 0 < h) :
    buildPieces (pre ++ item :: post)
      = buildPieces pre
        ++ List.replicate N.toNat
            (⟨item.id, item.component_width, item.height, item.part_name⟩ : Piece)
        ++ buildPieces post
    ∧ (List.replicate N.toNat
        (⟨item.id, item.component_width, item.height, item.part_name⟩ : Piece)).length
      = N.toNat
    ∧ ∀ p ∈ List.replicate N.toNat
        (⟨item.id, item.component_width, item.height, item.part_name⟩ : Piece),
        p.id = item.id ∧ p.width = some w ∧ p.height = some h
          ∧ p.name = item.part_name := by
  refine ⟨?_, List.length_replicate _ _, ?_⟩
  · rw [buildPieces_append]
    have : buildPieces (item :: post) = piecesOfRow item ++ buildPieces post := rfl
    rw [this]
    unfold piecesOfRow
    rw [hq, List.append_assoc]
  · intro p hp
    have hpe := (List.mem_replicate.mp hp).2
    subst hpe
    exact ⟨rfl, hw, hh, rfl⟩

/-- Witness for C6: a row with quantity 4 and dimensions 600×720 between
two other rows. -/
theorem quantity_expansion_exact_witness :
    buildPieces
        ([⟨"r0", "d1", "BASE", "Shelf", none, some 500, some 300, 1, some 18, none⟩]
          ++ ⟨"r1", "d1", "BASE", "Base Unit 600", some 600, some 600, some 720,
                4, some 18, none⟩
            :: [⟨"r2", "d1", "BASE", "Back", none, some 900, some 400, 2, some 18,
                none⟩])
      = buildPieces
          [⟨"r0", "d1", "BASE", "Shelf", none, some 500, some 300, 1, some 18, none⟩]
        ++ List.replicate (4 : ℤ).toNat
            (⟨"r1", some 600, some 720, "Base Unit 600"⟩ : Piece)
        ++ buildPieces
          [⟨"r2", "d1", "BASE", "Back", none, some 900, some 400, 2, some 18, none⟩] :=
  (quantity_expansion_exact
    [⟨"r0", "d1", "BASE", "Shelf", none, some 500, some 300, 1, some 18, none⟩]
    [⟨"r2", "d1", "BASE", "Back", none, some 900, some 400, 2, some 18, none⟩]
    ⟨"r1", "d1", "BASE", "Base Unit 600", some 600, some 600, some 720, 4,
      some 18, none⟩
    4 600 720 rfl (by norm_num) rfl (by norm_num) rfl (by norm_num)).1

lemma roundDiv_eq_roundToDec (n : ℤ) (den : ℕ) (d : ℕ) :
    roundDiv n den d = roundToDec ((n : ℚ) / (den : ℚ)) d := by
  unfold roundDiv roundToDec
  congr 2
  rw [Rat.mkRat_eq_div]
  push_cast
  ring

lemma foldl_add_map (f : CLRow → ℤ) (l : List CLRow) (a : ℤ) :
    l.foldl (fun acc it => acc + f it) a = a + (l.map f).sum := by
  induction l generalizing a with
  | nil => simp
  | cons x t ih =>
    simp only [List.foldl_cons, List.map_cons, List.sum_cons, ih]
    ring

/-- C8: a serialized cutting-list row exposes `area_mm2` equal to
`component_width * height` and `area_m2` equal to that value divided by
1,000,000 rounded to 4 decimals (for rows whose width and height columns
are present; a missing column is coalesced to 0 by the code), and the
drawing-level `total_area_m2` is the sum of
`component_width * height * quantity` over all rows, divided by 1,000,000
and rounded to 2 decimals. -/
theorem area_reporting (item : CLRow) (w h : ℤ) (items : List CLRow)
    (hw : item.component_width = some w) (hh : item.height = some h) :
    CuttingList.area_mm2 item = w * h
    ∧ CuttingList.area_m2 item = roundToDec (((w * h : ℤ) : ℚ) / (1000000 : ℚ)) 4
    ∧ Drawing.calculate_total_area items
        = roundToDec
            ((((items.map (fun it =>
                  it.component_width.getD 0 * it.height.getD 0 * it.quantity)).sum
                : ℤ) : ℚ)
              / (1000000 : ℚ)) 2 := by
  have hmm : CuttingList.area_mm2 item = w * h := by
    unfold CuttingList.area_mm2
    rw [hw, hh]
    rfl
  refine ⟨hmm, ?_, ?_⟩
  · unfold CuttingList.area_m2
    rw [hmm, roundDiv_eq_roundToDec]
    norm_num
  · unfold Drawing.calculate_total_area
    rw [foldl_add_map, roundDiv_eq_roundToDec]
    norm_num

/-- Witness for C8: a 600×720 row with quantity 4, also as the only row of
its drawing. -/
theorem area_reporting_witness :
    CuttingList.area_mm2
        ⟨"r1", "d1", "BASE", "Part", some 600, some 600, some 720, 4, some 18,
          none⟩
      = 600 * 720 :=
  (area_reporting
    ⟨"r1", "d1", "BASE", "Part", some 600, some 600, some 720, 4, some 18, none⟩
    600 720
    [⟨"r1", "d1", "BASE", "Part", some 600, some 600, some 720, 4, some 18,
      none⟩]
    rfl rfl).1

end DrawingAnalyser

namespace NestingModel

/-- C5: the nesting optimizer is deterministic — two calls with identical
piece lists and identical sheet configuration (sheet_width, sheet_height,
blade_width) produce identical output: the same sheet assignment, the same
x/y coordinates and the same rotation flag for every piece instance. The
optimizer is a pure function of its piece list and configuration, with all
best-fit ties broken by a fixed enumeration order, so equal inputs give
equal placements. -/
theorem nesting_optimizer_deterministic (pieces1 pieces2 : List NPiece)
    (cfg1 cfg2 : NestConfig) (hp : pieces1 = pieces2) (hc : cfg1 = cfg2) :
    NestingOptimizer.optimize cfg1 pieces1 = NestingOptimizer.optimize cfg2 pieces2 := by
  subst hp
  subst hc
  rfl

/-- Witness for C5: two identical requests for four 600×720 pieces on a
2440×1220 sheet with a 3 mm blade. -/
theorem nesting_optimizer_deterministic_witness :
    NestingOptimizer.optimize ⟨2440, 1220, 3⟩
        [⟨"p1", 600, 720, "Base"⟩, ⟨"p2", 600, 720, "Base"⟩,
         ⟨"p3", 600, 720, "Base"⟩, ⟨"p4", 600, 720, "Base"⟩]
      = NestingOptimizer.optimize ⟨2440, 1220, 3⟩
        [⟨"p1", 600, 720, "Base"⟩, ⟨"p2", 600, 720, "Base"⟩,
         ⟨"p3", 600, 720, "Base"⟩, ⟨"p4", 600, 720, "Base"⟩] :=
  nesting_optimizer_deterministic
    [⟨"p1", 600, 720, "Base"⟩, ⟨"p2", 600, 720, "Base"⟩,
     ⟨"p3", 600, 720, "Base"⟩, ⟨"p4", 600, 720, "Base"⟩]
    [⟨"p1", 600, 720, "Base"⟩, ⟨"p2", 600, 720, "Base"⟩,
     ⟨"p3", 600, 720, "Base"⟩, ⟨"p4", 600, 720, "Base"⟩]
    ⟨2440, 1220, 3⟩ ⟨2440, 1220, 3⟩ rfl rfl

end NestingModel
